import Mathlib

/-!
Verification of the neovim-gtk protocol dispatcher
(`src/nvim/redraw_handler.rs`) and the font-feature attribute helper
(`src/render/context.rs`) against the natural-language specification.

The Rust code is shallowly embedded: msgpack `Value`s become an inductive
type, fallible decoding becomes `Except`/`Option`, and a `panic`
(out-of-bounds `Vec` indexing or `Option::unwrap` on `None`) becomes a
distinguished `panic` outcome. The mutable redraw sink of the source is
represented by the single typed operation a dispatched call performs: the
dispatcher result carries the list of sink operations invoked (in order)
together with the returned repaint mode, so the theorems can speak about
"which sink operation ran" without modelling the sink's internal state.
-/

set_option autoImplicit false

namespace NvimGtk

/-- The dynamically typed wire value (`rmpv::Value` as used by
`neovim_lib`): nil, booleans, integers, strings, binary, arrays, maps.
Strings are modelled as valid UTF-8 (the only way the dispatcher ever
constructs or consumes them); the integer family is modelled by a single
unbounded `Int`, with signed/unsigned reinterpretation in the `as_u64`
accessor. -/
inductive Value where
  | nil : Value
  | boolean (b : Bool) : Value
  | integer (i : Int) : Value
  | str (s : String) : Value
  | bin (bytes : List Nat) : Value
  | array (items : List Value) : Value
  | map (entries : List (Value × Value)) : Value


/-- `Value::as_u64`: defined exactly on nonnegative integers. -/
def Value.as_u64 : Value → Option Nat
  | .integer i => if 0 ≤ i then some i.toNat else none
  | _ => none

/-- `Value::as_i64`: defined exactly on integers. -/
def Value.as_i64 : Value → Option Int
  | .integer i => some i
  | _ => none

/-- `Value::as_bool`: defined exactly on booleans. -/
def Value.as_bool : Value → Option Bool
  | .boolean b => some b
  | _ => none

/-- `Value::as_str`: defined exactly on (valid UTF-8) strings. -/
def Value.as_str : Value → Option String
  | .str s => some s
  | _ => none

/-- `Value::as_array`. -/
def Value.as_array : Value → Option (List Value)
  | .array items => some items
  | _ => none

/-- `Value::as_map`. -/
def Value.as_map : Value → Option (List (Value × Value))
  | .map entries => some entries
  | _ => none

/-- `neovim_lib::neovim_api::Tabpage`: an opaque handle wrapping the wire
value it was constructed from (`Tabpage::new(Value)`). -/
structure Tabpage where
  value : Value


/-- `Tabpage::new`. -/
def Tabpage.new (v : Value) : Tabpage := ⟨v⟩

/-- Modelled from the spec: `ModeInfo` (src/nvim/mode_info.rs is not among
the provided sources). Per §3 it is an external-collaborator-owned record
decoded from a Map value; the dispatcher only forwards each row's
attribute map to the constructor. The model keeps the forwarded map. -/
structure ModeInfo where
  attrs : List (Value × Value)


/-- Modelled from the spec: `ModeInfo::new` — the dispatcher forwards each
attribute map to this external constructor, "propagating its error"; the
spec states no failure condition, so the model is total. -/
def ModeInfo.new (attrs : List (Value × Value)) : Except String ModeInfo :=
  .ok ⟨attrs⟩

/-- `CompleteItem` (redraw_handler.rs): the four-column projection of one
completion-menu row. -/
structure CompleteItem where
  word : String
  kind : String
  menu : String
  info : String


/-- `CompleteItem::map`: builds one `CompleteItem` per row by indexing
cells 0..3 (`menu[0]`, `menu[1]`, `menu[2]`, `menu[3]`). The indexing is
unchecked in the source; a row with fewer than 4 cells is an
out-of-bounds panic, modelled as `none`. -/
def CompleteItem.map (menu : List (List String)) : Option (List CompleteItem) :=
  menu.mapM fun row =>
    match row[0]?, row[1]?, row[2]?, row[3]? with
    | some w, some k, some m, some i => some ⟨w, k, m, i⟩
    | _, _, _, _ => none

/-- Outcome of running a fallible piece of dispatcher code: it can panic
(unchecked `Vec` indexing / `Option::unwrap`), return early with a decode
error (`?` on a `Result`), or produce a value. -/
inductive PE (α : Type) where
  | panic : PE α
  | err (msg : String) : PE α
  | ok (a : α) : PE α

/-- `iter.map(...).collect::<Result<Vec<_>, _>>()`: sequence a fallible
function over a list, stopping at the first error. -/
def mapME {α β : Type} (f : α → Except String β) : List α → Except String (List β)
  | [] => .ok []
  | a :: rest =>
    match f a with
    | .error e => .error e
    | .ok b =>
      match mapME f rest with
      | .error e => .error e
      | .ok bs => .ok (b :: bs)

/-- Same short-circuiting sequence, for row decoders that can also panic. -/
def mapPE {α β : Type} (f : α → PE β) : List α → PE (List β)
  | [] => .ok []
  | a :: rest =>
    match f a with
    | .panic => .panic
    | .err e => .err e
    | .ok b =>
      match mapPE f rest with
      | .panic => .panic
      | .err e => .err e
      | .ok bs => .ok (b :: bs)

/-- ext-decode (`rmpv::ext::from_value`) with target
`HashMap<String, Value>`: a Map value whose keys are all strings, modelled
as the association list in wire order. -/
def decodeAttrMap : Value → Except String (List (String × Value))
  | .map entries =>
    mapME
      (fun kv =>
        match kv.1 with
        | .str s => .ok (s, kv.2)
        | _ => .error "error while decoding ext value")
      entries
  | _ => .error "error while decoding ext value"

/-- ext-decode with target `(HashMap<String, Value>, String)`: a
two-element array of an attribute map and a string. -/
def decodeContentCell : Value → Except String (List (String × Value) × String)
  | .array [m, .str s] =>
    match decodeAttrMap m with
    | .error e => .error e
    | .ok am => .ok (am, s)
  | _ => .error "error while decoding ext value"

/-- ext-decode with target `Vec<(HashMap<String, Value>, String)>`
(command-line content). -/
def decodeContent : Value → Except String (List (List (String × Value) × String))
  | .array items => mapME decodeContentCell items
  | _ => .error "error while decoding ext value"

/-- ext-decode with target `Vec<Vec<(HashMap<String, Value>, String)>>`
(command-line block content). -/
def decodeBlockContent :
    Value → Except String (List (List (List (String × Value) × String)))
  | .array items => mapME decodeContent items
  | _ => .error "error while decoding ext value"

/-- `try_str!` (as_str or an error). -/
def try_str (v : Value) : Except String String :=
  match v.as_str with
  | some s => .ok s
  | none => .error "Can\x27t convert argument to string"

/-- `try_int!` (as_i64 or an error). -/
def try_int (v : Value) : Except String Int :=
  match v.as_i64 with
  | some i => .ok i
  | none => .error "Can\x27t convert argument to int"

/-- `try_uint!` (as_u64 or an error). -/
def try_uint (v : Value) : Except String Nat :=
  match v.as_u64 with
  | some n => .ok n
  | none => .error "Can\x27t convert argument to u64"

/-- `try_bool!` (as_bool or an error). -/
def try_bool (v : Value) : Except String Bool :=
  match v.as_bool with
  | some b => .ok b
  | none => .error "Can\x27t convert argument to bool"

/-- The positional argument kinds used by the `call!` macro: `bool`,
`uint`, `int`, `str`, and the `ext` (structural) targets that occur in the
dispatch table. -/
inductive ArgKind where
  | bool : ArgKind
  | uint : ArgKind
  | int : ArgKind
  | str : ArgKind
  | extAttrMap : ArgKind
  | extContent : ArgKind
  | extBlockContent : ArgKind

/-- A coerced positional argument. -/
inductive TypedVal where
  | vBool (b : Bool) : TypedVal
  | vUint (n : Nat) : TypedVal
  | vInt (i : Int) : TypedVal
  | vStr (s : String) : TypedVal
  | vAttrMap (m : List (String × Value)) : TypedVal
  | vContent (c : List (List (String × Value) × String)) : TypedVal
  | vBlockContent (c : List (List (List (String × Value) × String))) : TypedVal

/-- `try_arg!`: coerce one positional value against one expected kind.
The `str` arm matches the source's own `match` (a non-`String` value is
"Can't convert to string"; utf-8 validity always holds in the model); the
other primitive arms delegate to the `try_*` macros' accessors, and the
`ext` arms to the structural decoder. -/
def tryArg (v : Value) (k : ArgKind) : Except String TypedVal :=
  match k with
  | .bool => (try_bool v).map .vBool
  | .uint => (try_uint v).map .vUint
  | .int => (try_int v).map .vInt
  | .str =>
    match v with
    | .str s => .ok (.vStr s)
    | _ => .error "Can\x27t convert to string"
  | .extAttrMap => (decodeAttrMap v).map .vAttrMap
  | .extContent => (decodeContent v).map .vContent
  | .extBlockContent => (decodeBlockContent v).map .vBlockContent

/-- The `call!` macro's argument loop: walk the registered kind sequence
positionally over `args.into_iter()`; a missing value is the
"No such argument for <sink fn>" error, and each present value goes
through `try_arg!`. Coercion is all-or-nothing: the sink operation is
built only after every argument has been coerced. -/
def coerceArgs (name : String) (args : List Value) (kinds : List ArgKind) :
    Except String (List TypedVal) :=
  match kinds with
  | [] => .ok []
  | k :: ks =>
    match args with
    | [] => .error ("No such argument for " ++ name)
    | v :: vs =>
      match tryArg v k with
      | .error e => .error e
      | .ok t =>
        match coerceArgs name vs ks with
        | .error e => .error e
        | .ok ts => .ok (t :: ts)

/-- Modelled from the spec: `RepaintMode` (src/nvim/repaint_mode.rs is not
among the provided sources). §3: a tagged union ordered by severity,
`Nothing < Cursor{row,col} < Area{top,bot,left,right} < Full`. The
dispatcher itself only ever constructs `Nothing`; the rest come from the
sink. -/
inductive RepaintMode where
  | nothing : RepaintMode
  | cursor (row col : Nat) : RepaintMode
  | area (top bot left right : Nat) : RepaintMode
  | full : RepaintMode
deriving DecidableEq, Repr

/-- Modelled from the spec: the pairwise combination rule of the repaint
aggregator (§4.4): `Full` absorbs everything; `Area` absorbs
`Nothing`/`Cursor` and, with another `Area`, yields the bounding
rectangle (min top/left, max bot/right); `Cursor` absorbs only `Nothing`
and, with another `Cursor`, keeps the later (right) position; `Nothing`
is the identity. -/
def RepaintMode.join (a b : RepaintMode) : RepaintMode :=
  match a, b with
  | .full, _ => .full
  | _, .full => .full
  | .area t1 b1 l1 r1, .area t2 b2 l2 r2 =>
    .area (min t1 t2) (max b1 b2) (min l1 l2) (max r1 r2)
  | .area t b l r, _ => .area t b l r
  | _, .area t b l r => .area t b l r
  | .cursor _ _, .cursor row col => .cursor row col
  | .cursor row col, .nothing => .cursor row col
  | .nothing, b2 => b2

/-- Modelled from the spec: the batch fold (§4.4) — outcomes are combined
pairwise in append order, starting from the identity `Nothing`. -/
def RepaintMode.fold (outcomes : List RepaintMode) : RepaintMode :=
  outcomes.foldl RepaintMode.join .nothing

/-- One typed operation on the `RedrawEvents` sink capability, with the
coerced values it is invoked with (one constructor per trait method used
by the dispatcher). -/
inductive SinkOp where
  | onCursorGoto (row col : Nat) : SinkOp
  | onPut (text : String) : SinkOp
  | onClear : SinkOp
  | onResize (columns rows : Nat) : SinkOp
  | onHighlightSet (attrs : List (String × Value)) : SinkOp
  | onEolClear : SinkOp
  | onSetScrollRegion (top bot left right : Nat) : SinkOp
  | onScroll (count : Int) : SinkOp
  | onUpdateBg (bg : Int) : SinkOp
  | onUpdateFg (fg : Int) : SinkOp
  | onUpdateSp (sp : Int) : SinkOp
  | onModeChange (mode : String) (idx : Nat) : SinkOp
  | onMouse (b : Bool) : SinkOp
  | onBusy (busy : Bool) : SinkOp
  | popupmenuShow (menu : List CompleteItem) (selected : Int) (row col : Nat) : SinkOp
  | popupmenuHide : SinkOp
  | popupmenuSelect (selected : Int) : SinkOp
  | tablineUpdate (selected : Tabpage) (tabs : List (Tabpage × Option String)) : SinkOp
  | modeInfoSet (cursor_style_enabled : Bool) (mode_info : List ModeInfo) : SinkOp
  | cmdlineShow (content : List (List (String × Value) × String)) (pos : Nat)
      (firstc prompt : String) (indent level : Nat) : SinkOp
  | cmdlineHide (level : Nat) : SinkOp
  | cmdlineBlockShow (content : List (List (List (String × Value) × String))) : SinkOp
  | cmdlineBlockAppend (content : List (List (String × Value) × String)) : SinkOp
  | cmdlineBlockHide : SinkOp
  | cmdlinePos (pos : Nat) (level : Nat) : SinkOp
  | cmdlineSpecialChar (c : String) (shift : Bool) (level : Nat) : SinkOp

/-- Result of dispatching one redraw call. `ops` is the ordered list of
sink operations that were invoked before the call finished (panicked,
returned an error, or succeeded); in this dispatcher each arm invokes at
most one, and only after all decoding succeeded. -/
inductive CallResult where
  | panic (ops : List SinkOp) : CallResult
  | err (msg : String) (ops : List SinkOp) : CallResult
  | ok (ops : List SinkOp) (mode : RepaintMode) : CallResult

/-- A `call!`-macro arm: coerce the whole argument list, then invoke the
sink operation and return its repaint mode. The `build` function
reassembles the typed values into the sink operation; its `none` branch
is unreachable for the kind sequence each arm passes (coercion returns
exactly the registered kinds) and stands for the impossible case the
macro's static typing rules out. -/
def runMacroArm (sink : SinkOp → RepaintMode)
    (coerced : Except String (List TypedVal))
    (build : List TypedVal → Option SinkOp) : CallResult :=
  match coerced with
  | .error e => .err e []
  | .ok ts =>
    match build ts with
    | some op => .ok [op] (sink op)
    | none => .panic []

/-- The `highlight_set` / `set_scroll_region` variant: the sink operation
is invoked but its result is discarded and the arm yields
`RepaintMode::Nothing`. -/
def runMacroArmDiscard (_sink : SinkOp → RepaintMode)
    (coerced : Except String (List TypedVal))
    (build : List TypedVal → Option SinkOp) : CallResult :=
  match coerced with
  | .error e => .err e []
  | .ok ts =>
    match build ts with
    | some op => .ok [op] .nothing
    | none => .panic []

/-- A zero-wire-argument arm: the sink operation is invoked directly,
without looking at the argument list. -/
def runZeroArg (sink : SinkOp → RepaintMode) (op : SinkOp) : CallResult :=
  .ok [op] (sink op)

def buildCursorGoto : List TypedVal → Option SinkOp
  | [.vUint row, .vUint col] => some (.onCursorGoto row col)
  | _ => none

def buildPut : List TypedVal → Option SinkOp
  | [.vStr text] => some (.onPut text)
  | _ => none

def buildResize : List TypedVal → Option SinkOp
  | [.vUint columns, .vUint rows] => some (.onResize columns rows)
  | _ => none

def buildHighlightSet : List TypedVal → Option SinkOp
  | [.vAttrMap attrs] => some (.onHighlightSet attrs)
  | _ => none

def buildSetScrollRegion : List TypedVal → Option SinkOp
  | [.vUint top, .vUint bot, .vUint left, .vUint right] =>
    some (.onSetScrollRegion top bot left right)
  | _ => none

def buildScroll : List TypedVal → Option SinkOp
  | [.vInt count] => some (.onScroll count)
  | _ => none

def buildUpdateBg : List TypedVal → Option SinkOp
  | [.vInt bg] => some (.onUpdateBg bg)
  | _ => none

def buildUpdateFg : List TypedVal → Option SinkOp
  | [.vInt fg] => some (.onUpdateFg fg)
  | _ => none

def buildUpdateSp : List TypedVal → Option SinkOp
  | [.vInt sp] => some (.onUpdateSp sp)
  | _ => none

def buildModeChange : List TypedVal → Option SinkOp
  | [.vStr mode, .vUint idx] => some (.onModeChange mode idx)
  | _ => none

def buildPopupmenuSelect : List TypedVal → Option SinkOp
  | [.vInt selected] => some (.popupmenuSelect selected)
  | _ => none

def buildCmdlineShow : List TypedVal → Option SinkOp
  | [.vContent content, .vUint pos, .vStr firstc, .vStr prompt,
     .vUint indent, .vUint level] =>
    some (.cmdlineShow content pos firstc prompt indent level)
  | _ => none

def buildCmdlineHide : List TypedVal → Option SinkOp
  | [.vUint level] => some (.cmdlineHide level)
  | _ => none

def buildCmdlineBlockShow : List TypedVal → Option SinkOp
  | [.vBlockContent content] => some (.cmdlineBlockShow content)
  | _ => none

def buildCmdlineBlockAppend : List TypedVal → Option SinkOp
  | [.vContent content] => some (.cmdlineBlockAppend content)
  | _ => none

def buildCmdlinePos : List TypedVal → Option SinkOp
  | [.vUint pos, .vUint level] => some (.cmdlinePos pos level)
  | _ => none

def buildCmdlineSpecialChar : List TypedVal → Option SinkOp
  | [.vStr c, .vBool shift, .vUint level] => some (.cmdlineSpecialChar c shift level)
  | _ => none

/-- The inner `map_array!` of `popupmenu_show`: one menu row as an array
of string cells. -/
def decodeMenuRow (item : Value) : Except String (List String) :=
  match item.as_array with
  | none => .error "Error get menu item array"
  | some cells =>
    mapME
      (fun col =>
        match col.as_str with
        | some s => .ok s
        | none => .error "Error get menu column")
      cells

/-- The outer `map_array!` of `popupmenu_show`: the menu-items argument as
an array of rows. -/
def decodeMenu (v : Value) : Except String (List (List String)) :=
  match v.as_array with
  | none => .error "Error get menu list array"
  | some items => mapME decodeMenuRow items

/-- The `popupmenu_show` arm: decode `args[0]` into rows of string cells
(`map_array!`), build `CompleteItem`s by unchecked indexing
(`CompleteItem::map`), then coerce `args[1..3]` and invoke the sink.
Each `args[i]` is a direct `Vec` index: out of bounds panics. -/
def popupmenuShowArm (sink : SinkOp → RepaintMode) (args : List Value) : CallResult :=
  match args[0]? with
  | none => .panic []
  | some a0 =>
    match decodeMenu a0 with
    | .error e => .err e []
    | .ok rows =>
      match CompleteItem.map rows with
      | none => .panic []
      | some items =>
        match args[1]? with
        | none => .panic []
        | some a1 =>
          match try_int a1 with
          | .error e => .err e []
          | .ok selected =>
            match args[2]? with
            | none => .panic []
            | some a2 =>
              match try_uint a2 with
              | .error e => .err e []
              | .ok row =>
                match args[3]? with
                | none => .panic []
                | some a3 =>
                  match try_uint a3 with
                  | .error e => .err e []
                  | .ok col =>
                    let op := SinkOp.popupmenuShow items selected row col
                    .ok [op] (sink op)

/-- Modelled from the spec: `ValueMapExt::to_attrs_map` (src/value.rs is
not among the provided sources). Per §4.1, a Map value becomes a
key-to-value lookup; the keys of an attribute map are strings, and a
non-string key is a decode error. -/
def to_attrs_map (entries : List (Value × Value)) :
    Except String (List (String × Value)) :=
  mapME
    (fun kv =>
      match kv.1 with
      | .str s => .ok (s, kv.2)
      | _ => .error "error while converting map to attrs map")
    entries

/-- Lookup in a decoded attribute map; per §4.1 "last key wins on
duplicates". -/
def attrsGet (m : List (String × Value)) (k : String) : Option Value :=
  (m.reverse.find? (fun p => p.1 == k)).map (·.2)

/-- One row of the `tabline_update` tabs argument: an attribute map with
an optional string under "name" and the tab identity under "tab"; the
"tab" access is `.unwrap()`ed in the source, so a row without it panics. -/
def decodeTabRow (tab : Value) : PE (Tabpage × Option String) :=
  match tab.as_map with
  | none => .err "Error get map for tab"
  | some tab_map =>
    match to_attrs_map tab_map with
    | .error e => .err e
    | .ok tab_attrs =>
      let name_attr := (attrsGet tab_attrs "name").bind Value.as_str
      match attrsGet tab_attrs "tab" with
      | some tab_id => .ok (Tabpage.new tab_id, name_attr)
      | none => .panic

/-- The `tabline_update` arm: `args[1]` is decoded first (`map_array!`,
row-wise `decodeTabRow`), then `args[0]` is wrapped as the selected
`Tabpage` and the sink is invoked. Both `args[i]` are direct `Vec`
indexing: out of bounds panics. -/
def tablineUpdateArm (sink : SinkOp → RepaintMode) (args : List Value) : CallResult :=
  match args[1]? with
  | none => .panic []
  | some a1 =>
    match a1.as_array with
    | none => .err "Error get tabline list" []
    | some items =>
      match mapPE decodeTabRow items with
      | .panic => .panic []
      | .err e => .err e []
      | .ok tabs =>
        match args[0]? with
        | none => .panic []
        | some a0 =>
          let op := SinkOp.tablineUpdate (Tabpage.new a0) tabs
          .ok [op] (sink op)

/-- One row of the `mode_info_set` second argument: a map forwarded to
`ModeInfo::new`. The misspelled message is the source's own. -/
def decodeModeInfoRow (mi : Value) : Except String ModeInfo :=
  match mi.as_map with
  | none => .error "Erro get map for mode_info"
  | some mi_map => ModeInfo.new mi_map

/-- The `mode_info_set` arm: `args[1]` is decoded first (`map_array!`,
row-wise `ModeInfo::new`), then `args[0]` is coerced with `try_bool!`.
Both `args[i]` are direct `Vec` indexing: out of bounds panics. -/
def modeInfoSetArm (sink : SinkOp → RepaintMode) (args : List Value) : CallResult :=
  match args[1]? with
  | none => .panic []
  | some a1 =>
    match a1.as_array with
    | none => .err "Error get array key value for mode_info" []
    | some items =>
      match mapME decodeModeInfoRow items with
      | .error e => .err e []
      | .ok mode_info =>
        match args[0]? with
        | none => .panic []
        | some a0 =>
          match try_bool a0 with
          | .error e => .err e []
          | .ok cursor_style_enabled =>
            let op := SinkOp.modeInfoSet cursor_style_enabled mode_info
            .ok [op] (sink op)

/-- `call` (redraw_handler.rs): dispatch one redraw call. Arm order and
the registered kind sequence of each `call!` use follow the source
`match`; the catch-all arm logs and yields `RepaintMode::Nothing`
wrapped in `Ok`. -/
def call (sink : SinkOp → RepaintMode) (method : String) (args : List Value) :
    CallResult :=
  match method with
  | "cursor_goto" =>
    runMacroArm sink (coerceArgs "on_cursor_goto" args [.uint, .uint]) buildCursorGoto
  | "put" => runMacroArm sink (coerceArgs "on_put" args [.str]) buildPut
  | "clear" => runZeroArg sink .onClear
  | "resize" => runMacroArm sink (coerceArgs "on_resize" args [.uint, .uint]) buildResize
  | "highlight_set" =>
    runMacroArmDiscard sink (coerceArgs "on_highlight_set" args [.extAttrMap])
      buildHighlightSet
  | "eol_clear" => runZeroArg sink .onEolClear
  | "set_scroll_region" =>
    runMacroArmDiscard sink
      (coerceArgs "on_set_scroll_region" args [.uint, .uint, .uint, .uint])
      buildSetScrollRegion
  | "scroll" => runMacroArm sink (coerceArgs "on_scroll" args [.int]) buildScroll
  | "update_bg" => runMacroArm sink (coerceArgs "on_update_bg" args [.int]) buildUpdateBg
  | "update_fg" => runMacroArm sink (coerceArgs "on_update_fg" args [.int]) buildUpdateFg
  | "update_sp" => runMacroArm sink (coerceArgs "on_update_sp" args [.int]) buildUpdateSp
  | "mode_change" =>
    runMacroArm sink (coerceArgs "on_mode_change" args [.str, .uint]) buildModeChange
  | "mouse_on" => runZeroArg sink (.onMouse true)
  | "mouse_off" => runZeroArg sink (.onMouse false)
  | "busy_start" => runZeroArg sink (.onBusy true)
  | "busy_stop" => runZeroArg sink (.onBusy false)
  | "popupmenu_show" => popupmenuShowArm sink args
  | "popupmenu_hide" => runZeroArg sink .popupmenuHide
  | "popupmenu_select" =>
    runMacroArm sink (coerceArgs "popupmenu_select" args [.int]) buildPopupmenuSelect
  | "tabline_update" => tablineUpdateArm sink args
  | "mode_info_set" => modeInfoSetArm sink args
  | "cmdline_show" =>
    runMacroArm sink
      (coerceArgs "cmdline_show" args [.extContent, .uint, .str, .str, .uint, .uint])
      buildCmdlineShow
  | "cmdline_block_show" =>
    runMacroArm sink (coerceArgs "cmdline_block_show" args [.extBlockContent])
      buildCmdlineBlockShow
  | "cmdline_block_append" =>
    runMacroArm sink (coerceArgs "cmdline_block_append" args [.extContent])
      buildCmdlineBlockAppend
  | "cmdline_hide" =>
    runMacroArm sink (coerceArgs "cmdline_hide" args [.uint]) buildCmdlineHide
  | "cmdline_block_hide" => runZeroArg sink .cmdlineBlockHide
  | "cmdline_pos" =>
    runMacroArm sink (coerceArgs "cmdline_pos" args [.uint, .uint]) buildCmdlinePos
  | "cmdline_special_char" =>
    runMacroArm sink (coerceArgs "cmdline_special_char" args [.str, .bool, .uint])
      buildCmdlineSpecialChar
  | _ => .ok [] .nothing

/-- One state-changing effect of the GUI command dispatcher on its
external collaborators (`shell::State` and the editor session are outside
the provided sources; per §4.3 the commands set local UI state or request
an editor-side option change). -/
inductive GuiEffect where
  | setFont (font_desc : String) : GuiEffect
  | clipboardPrimarySet (text : String) : GuiEffect
  | clipboardClipboardSet (text : String) : GuiEffect
  | setOptionExtPopupmenu (enabled : Bool) : GuiEffect
  | setOptionExtTabline (enabled : Bool) : GuiEffect
  | setOptionExtCmdline (enabled : Bool) : GuiEffect

/-- Result of one GUI command dispatch: panic (argument `Vec` indexing),
error (`Err(String)`), or success with the effects performed, in order. -/
inductive GuiResult where
  | panic (effects : List GuiEffect) : GuiResult
  | err (msg : String) (effects : List GuiEffect) : GuiResult
  | ok (effects : List GuiEffect) : GuiResult

/-- The `Option` sub-command arms share this shape: check the session
handle (`ui.nvim()`), then coerce `args[1]` with `try_uint!` inside the
closure and request the editor-side option change. `has_nvim` stands for
an established session; the `set_option` transport call itself is assumed
to succeed (external collaborator). -/
def optionArm (has_nvim : Bool) (args : List Value) (mk : Bool → GuiEffect) : GuiResult :=
  if has_nvim then
    match args[1]? with
    | none => .panic []
    | some a1 =>
      match a1.as_u64 with
      | none => .err "Can\x27t convert argument to u64" []
      | some n => .ok [mk (n == 1)]
  else .err "Nvim not initialized" []

/-- `call_gui_event` (redraw_handler.rs): the out-of-band command
dispatcher. Recognized top-level methods are exactly `Font`, `Clipboard`
and `Option`; unknown sub-options are logged (`error!`) and the function
still returns `Ok(())`; an unknown top-level method returns
`Err("Unsupported event ...")`. Arguments are indexed directly
(`args[0]`, ...), so a too-short list panics. -/
def call_gui_event (has_nvim : Bool) (method : String) (args : List Value) :
    GuiResult :=
  match method with
  | "Font" =>
    match args[0]? with
    | none => .panic []
    | some a0 =>
      match a0.as_str with
      | none => .err "Can\x27t convert argument to string" []
      | some s => .ok [.setFont s]
  | "Clipboard" =>
    match args[0]? with
    | none => .panic []
    | some a0 =>
      match a0.as_str with
      | none => .err "Can\x27t convert argument to string" []
      | some s0 =>
        match s0 with
        | "Set" =>
          match args[1]? with
          | none => .panic []
          | some a1 =>
            match a1.as_str with
            | none => .err "Can\x27t convert argument to string" []
            | some s1 =>
              match args[2]? with
              | none => .panic []
              | some a2 =>
                match a2.as_str with
                | none => .err "Can\x27t convert argument to string" []
                | some s2 =>
                  match s1 with
                  | "*" => .ok [.clipboardPrimarySet s2]
                  | _ => .ok [.clipboardClipboardSet s2]
        | _ => .ok []
  | "Option" =>
    match args[0]? with
    | none => .panic []
    | some a0 =>
      match a0.as_str with
      | none => .err "Can\x27t convert argument to string" []
      | some s0 =>
        match s0 with
        | "Popupmenu" => optionArm has_nvim args .setOptionExtPopupmenu
        | "Tabline" => optionArm has_nvim args .setOptionExtTabline
        | "Cmdline" => optionArm has_nvim args .setOptionExtCmdline
        | _ => .ok []
  | _ => .err ("Unsupported event " ++ method) []

/-- Result of one GUI request dispatch: the answer or the error are both
wire values (`Result<Value, Value>`); a too-short argument list panics. -/
inductive ReqResult where
  | panic : ReqResult
  | err (e : Value) : ReqResult
  | ok (v : Value) : ReqResult

/-- The two clipboards owned by `shell::State`; `none` models a clipboard
whose `wait_for_text` yields no text (turned into `""` by
`unwrap_or_else`). -/
structure ClipboardState where
  clipboard_primary : Option String
  clipboard_clipboard : Option String

/-- Rust `str::split` with a `"\n"` pattern, on the character list: the
list of segments between newlines; the empty string yields one empty
segment. -/
def splitNewlineChars : List Char → List (List Char)
  | [] => [[]]
  | c :: rest =>
    match splitNewlineChars rest with
    | h :: t => if c = '\n' then [] :: h :: t else (c :: h) :: t
    | [] => [[]]

/-- `text.split("\n")` as a list of strings. -/
def splitNewline (s : String) : List String :=
  (splitNewlineChars s.data).map List.asString

/-- `call_gui_request` (redraw_handler.rs): the synchronous request
dispatcher. Only `Clipboard` / `Get` is recognized: it selects the
primary or clipboard selection by `args[1]`, waits for its text (empty
when absent) and answers with the newline-split lines as an array of
string values. An unknown sub-option logs and answers `Err(Nil)`; an
unknown method answers `Err("Unsupported request ...")`. -/
def call_gui_request (ui : ClipboardState) (method : String) (args : List Value) :
    ReqResult :=
  match method with
  | "Clipboard" =>
    match args[0]? with
    | none => .panic
    | some a0 =>
      match a0.as_str with
      | none => .err (.str "Can\x27t convert argument to string")
      | some s0 =>
        match s0 with
        | "Get" =>
          match args[1]? with
          | none => .panic
          | some a1 =>
            match a1.as_str with
            | none => .err (.str "Can\x27t convert argument to string")
            | some sel =>
              let clipboard :=
                match sel with
                | "*" => ui.clipboard_primary
                | _ => ui.clipboard_clipboard
              let t := clipboard.getD ""
              .ok (.array ((splitNewline t).map Value.str))
        | _ => .err .nil
  | _ => .err (.str ("Unsupported request " ++ method))

/-- Rust `char::is_whitespace`: the Unicode `White_Space` property. -/
def rustIsWhitespace (c : Char) : Bool :=
  decide ((9 ≤ c.toNat ∧ c.toNat ≤ 13) ∨ c.toNat = 32 ∨ c.toNat = 0x85 ∨
    c.toNat = 0xA0 ∨ c.toNat = 0x1680 ∨ (0x2000 ≤ c.toNat ∧ c.toNat ≤ 0x200A) ∨
    c.toNat = 0x2028 ∨ c.toNat = 0x2029 ∨ c.toNat = 0x202F ∨ c.toNat = 0x205F ∨
    c.toNat = 0x3000)

/-- Rust `str::trim`, on the character list: strip leading and trailing
whitespace. -/
def rustTrim (l : List Char) : List Char :=
  ((l.dropWhile rustIsWhitespace).reverse.dropWhile rustIsWhitespace).reverse

/-- `FontFeatures` (render/context.rs): an optional font-feature string. -/
structure FontFeatures where
  features : Option String

/-- `FontFeatures::new`. -/
def FontFeatures.new : FontFeatures := ⟨none⟩

/-- `FontFeatures::from`: a string whose trim is empty stores nothing;
otherwise the string is stored as-is. -/
def FontFeatures.fromString (font_features : String) : FontFeatures :=
  if (rustTrim font_features.data).isEmpty then .new
  else ⟨some font_features⟩

/-- A pango attribute as produced by `sys_pango::attribute::new_features`
plus the two index setters: the feature string and the `[start, end)`
byte range. `set_end_index` takes the `usize` cast to `u32`, hence the
modulus. -/
structure PangoAttribute where
  features : String
  start_index : Nat
  end_index : Nat
deriving DecidableEq, Repr

/-- `FontFeatures::insert_attr`: with no stored features the attribute
list is untouched; otherwise one features attribute spanning byte 0 to
`end_idx as u32` is inserted. `pango::AttrList::insert` places the new
attribute after existing ones; the list is modelled as the insertion
order. -/
def FontFeatures.insert_attr (self : FontFeatures) (attr_list : List PangoAttribute)
    (end_idx : Nat) : List PangoAttribute :=
  match self.features with
  | none => attr_list
  | some features => attr_list ++ [⟨features, 0, end_idx % 2 ^ 32⟩]

/-- A concrete sink whose every operation reports no repaint; used to
instantiate theorems at closed inputs. -/
def sinkNothing : SinkOp → RepaintMode := fun _ => .nothing

/-- A concrete sink whose every operation requests a full repaint; used to
observe whether the dispatcher returns the sink operation's outcome. -/
def sinkFull : SinkOp → RepaintMode := fun _ => .full

/-- The 28 method names the redraw dispatch `match` recognizes, in source
order. -/
def recognizedMethods : List String :=
  ["cursor_goto", "put", "clear", "resize", "highlight_set", "eol_clear",
   "set_scroll_region", "scroll", "update_bg", "update_fg", "update_sp",
   "mode_change", "mouse_on", "mouse_off", "busy_start", "busy_stop",
   "popupmenu_show", "popupmenu_hide", "popupmenu_select", "tabline_update",
   "mode_info_set", "cmdline_show", "cmdline_block_show", "cmdline_block_append",
   "cmdline_hide", "cmdline_block_hide", "cmdline_pos", "cmdline_special_char"]

theorem coerceArgs_short (name : String) (args : List Value) (kinds : List ArgKind)
    (h : args.length < kinds.length) :
    ∃ msg, coerceArgs name args kinds = .error msg := by
  induction kinds generalizing args with
  | nil => simp at h
  | cons k ks ih =>
    cases args with
    | nil => exact ⟨"No such argument for " ++ name, rfl⟩
    | cons v vs =>
      have h' : vs.length < ks.length := by simpa using h
      cases htry : tryArg v k with
      | error e => exact ⟨e, by simp [coerceArgs, htry]⟩
      | ok t =>
        obtain ⟨msg, hm⟩ := ih vs h'
        exact ⟨msg, by simp [coerceArgs, htry, hm]⟩

theorem coerceArgs_prefix_ok (name : String) (args : List Value)
    (kinds : List ArgKind) (ts : List TypedVal) (h : args.length < kinds.length)
    (hp : coerceArgs name args (kinds.take args.length) = .ok ts) :
    coerceArgs name args kinds = .error ("No such argument for " ++ name) := by
  induction args generalizing kinds ts with
  | nil =>
    cases kinds with
    | nil => simp at h
    | cons k ks => rfl
  | cons v vs ih =>
    cases kinds with
    | nil => simp at h
    | cons k ks =>
      have h' : vs.length < ks.length := by simpa using h
      simp only [List.length_cons, List.take_succ_cons] at hp
      cases htry : tryArg v k with
      | error e => simp [coerceArgs, htry] at hp
      | ok t =>
        cases hrec : coerceArgs name vs (ks.take vs.length) with
        | error e => simp [coerceArgs, htry, hrec] at hp
        | ok ts' =>
          simp only [coerceArgs, htry]
          rw [ih ks ts' h' hrec]

theorem runMacroArm_err (sink : SinkOp → RepaintMode)
    (coerced : Except String (List TypedVal)) (build : List TypedVal → Option SinkOp)
    (msg : String) (h : coerced = .error msg) :
    runMacroArm sink coerced build = .err msg [] := by
  rw [h]; rfl

theorem runMacroArmDiscard_err (sink : SinkOp → RepaintMode)
    (coerced : Except String (List TypedVal)) (build : List TypedVal → Option SinkOp)
    (msg : String) (h : coerced = .error msg) :
    runMacroArmDiscard sink coerced build = .err msg [] := by
  rw [h]; rfl

/-- C1: the claim states that a popup-menu row with fewer than 4 cells is
a decode error returned as a `Result` and never a panic. On the code the
opposite holds: the row decoder accepts any array of strings and
`CompleteItem::map` then indexes cells 0..3 unchecked, so a 3-cell row
panics (first conjunct evaluates the dispatcher to the panic outcome at
the failing input). The claim's positive half does hold: the row
`["word", "kind", "menu", "info"]` yields the `CompleteItem` with
word/kind/menu/info in that order (second and third conjuncts). -/
theorem C1_popupmenu_row_arity (sink : SinkOp → RepaintMode) :
    call sink "popupmenu_show"
      [.array [.array [.str "word", .str "kind", .str "menu"]],
       .integer 0, .integer 0, .integer 0] = .panic [] ∧
    CompleteItem.map [["word", "kind", "menu", "info"]] =
      some [⟨"word", "kind", "menu", "info"⟩] ∧
    call sink "popupmenu_show"
      [.array [.array [.str "word", .str "kind", .str "menu", .str "info"]],
       .integer 1, .integer 2, .integer 3] =
      .ok [.popupmenuShow [⟨"word", "kind", "menu", "info"⟩] 1 2 3]
        (sink (.popupmenuShow [⟨"word", "kind", "menu", "info"⟩] 1 2 3)) :=
  ⟨rfl, rfl, rfl⟩

/-- C4: the claim states that a tabline row whose attribute map lacks the
"tab" key makes dispatch fail with a decode error returned as a `Result`,
not a panic. On the code the "tab" lookup is `.unwrap()`ed, so such a row
panics before the sink is invoked (first conjunct evaluates the
dispatcher to the panic outcome at the failing input); a row that does
carry the key dispatches normally (second conjunct). -/
theorem C4_tabline_missing_tab_key (sink : SinkOp → RepaintMode) :
    call sink "tabline_update"
      [.nil, .array [.map [(.str "name", .str "t1")]]] = .panic [] ∧
    call sink "tabline_update"
      [.nil, .array [.map [(.str "tab", .integer 1)]]] =
      .ok [.tablineUpdate (Tabpage.new .nil) [(Tabpage.new (.integer 1), none)]]
        (sink (.tablineUpdate (Tabpage.new .nil)
          [(Tabpage.new (.integer 1), none)])) :=
  ⟨rfl, rfl⟩

/-- C5: every method name outside the recognized redraw set dispatches,
for every argument list, to `Ok` with `RepaintMode::Nothing` and no sink
operation — unknown protocol extensions never abort dispatch. -/
theorem C5_unrecognized_method_ok (method : String)
    (h : method ∉ recognizedMethods) (sink : SinkOp → RepaintMode)
    (args : List Value) : call sink method args = .ok [] .nothing := by
  unfold call
  split <;> simp_all [recognizedMethods]

/-- C5 witness: the spec's own example name. -/
theorem C5_unrecognized_method_ok_witness :
    call sinkNothing "future_feature" [] = .ok [] .nothing :=
  C5_unrecognized_method_ok "future_feature" (by decide) sinkNothing []

/-- C7: `Clipboard` / `Get` answers with the clipboard text split on
newline boundaries as an array of string values — an empty clipboard
yields one empty line, a two-line text yields one value per line — and an
ill-typed (non-string) selection argument yields an error value. -/
theorem C7_clipboard_get_lines :
    call_gui_request ⟨none, none⟩ "Clipboard" [.str "Get", .str "*"] =
      .ok (.array [.str ""]) ∧
    call_gui_request ⟨some "a\nb", none⟩ "Clipboard" [.str "Get", .str "*"] =
      .ok (.array [.str "a", .str "b"]) ∧
    call_gui_request ⟨none, none⟩ "Clipboard" [.str "Get", .nil] =
      .err (.str "Can\x27t convert argument to string") :=
  ⟨rfl, rfl, rfl⟩

theorem macroArm_short_err (sink : SinkOp → RepaintMode) (name : String)
    (kinds : List ArgKind) (build : List TypedVal → Option SinkOp)
    (args : List Value) (h : args.length < kinds.length) :
    (∃ msg, runMacroArm sink (coerceArgs name args kinds) build = .err msg []) ∧
    (∀ ts, coerceArgs name args (kinds.take args.length) = .ok ts →
      runMacroArm sink (coerceArgs name args kinds) build =
        .err ("No such argument for " ++ name) []) := by
  constructor
  · obtain ⟨msg, hm⟩ := coerceArgs_short name args kinds h
    exact ⟨msg, runMacroArm_err sink _ build msg hm⟩
  · intro ts hp
    exact runMacroArm_err sink _ build _ (coerceArgs_prefix_ok name args kinds ts h hp)

theorem macroArmDiscard_short_err (sink : SinkOp → RepaintMode) (name : String)
    (kinds : List ArgKind) (build : List TypedVal → Option SinkOp)
    (args : List Value) (h : args.length < kinds.length) :
    (∃ msg, runMacroArmDiscard sink (coerceArgs name args kinds) build = .err msg []) ∧
    (∀ ts, coerceArgs name args (kinds.take args.length) = .ok ts →
      runMacroArmDiscard sink (coerceArgs name args kinds) build =
        .err ("No such argument for " ++ name) []) := by
  constructor
  · obtain ⟨msg, hm⟩ := coerceArgs_short name args kinds h
    exact ⟨msg, runMacroArmDiscard_err sink _ build msg hm⟩
  · intro ts hp
    exact runMacroArmDiscard_err sink _ build _ (coerceArgs_prefix_ok name args kinds ts h hp)

/-- C2 counterexample: the claim states that for every recognized method
a too-short argument list yields a missing-argument error and not a
panic; but dispatching `mode_info_set` with no arguments panics (the
`args[1]` out-of-bounds index) before any error can be returned. -/
theorem C2_missing_arguments_cex :
    call sinkNothing "mode_info_set" [] = .panic [] := rfl

/-- C2 (amended): for the 17 methods dispatched through the `call!`
macro, an argument list shorter than the registered kind sequence makes
dispatch return an error with no sink operation invoked — specifically
the missing-argument error whenever the supplied values all coerce
(expressed by the prefix-coercion premise). The three hand-decoded
methods `popupmenu_show`, `tabline_update` and `mode_info_set` instead
index the argument `Vec` directly and panic when it is too short (final
three conjuncts, at the empty list). -/
theorem C2_missing_arguments :
    (∀ (sink : SinkOp → RepaintMode) (args : List Value), args.length < 2 →
      (∃ msg, call sink "cursor_goto" args = .err msg []) ∧
      (∀ ts, coerceArgs "on_cursor_goto" args
          (List.take args.length [.uint, .uint]) = .ok ts →
        call sink "cursor_goto" args =
          .err ("No such argument for " ++ "on_cursor_goto") [])) ∧
    (∀ (sink : SinkOp → RepaintMode) (args : List Value), args.length < 1 →
      (∃ msg, call sink "put" args = .err msg []) ∧
      (∀ ts, coerceArgs "on_put" args (List.take args.length [.str]) = .ok ts →
        call sink "put" args = .err ("No such argument for " ++ "on_put") [])) ∧
    (∀ (sink : SinkOp → RepaintMode) (args : List Value), args.length < 2 →
      (∃ msg, call sink "resize" args = .err msg []) ∧
      (∀ ts, coerceArgs "on_resize" args
          (List.take args.length [.uint, .uint]) = .ok ts →
        call sink "resize" args = .err ("No such argument for " ++ "on_resize") [])) ∧
    (∀ (sink : SinkOp → RepaintMode) (args : List Value), args.length < 1 →
      (∃ msg, call sink "highlight_set" args = .err msg []) ∧
      (∀ ts, coerceArgs "on_highlight_set" args
          (List.take args.length [.extAttrMap]) = .ok ts →
        call sink "highlight_set" args =
          .err ("No such argument for " ++ "on_highlight_set") [])) ∧
    (∀ (sink : SinkOp → RepaintMode) (args : List Value), args.length < 4 →
      (∃ msg, call sink "set_scroll_region" args = .err msg []) ∧
      (∀ ts, coerceArgs "on_set_scroll_region" args
          (List.take args.length [.uint, .uint, .uint, .uint]) = .ok ts →
        call sink "set_scroll_region" args =
          .err ("No such argument for " ++ "on_set_scroll_region") [])) ∧
    (∀ (sink : SinkOp → RepaintMode) (args : List Value), args.length < 1 →
      (∃ msg, call sink "scroll" args = .err msg []) ∧
      (∀ ts, coerceArgs "on_scroll" args (List.take args.length [.int]) = .ok ts →
        call sink "scroll" args = .err ("No such argument for " ++ "on_scroll") [])) ∧
    (∀ (sink : SinkOp → RepaintMode) (args : List Value), args.length < 1 →
      (∃ msg, call sink "update_bg" args = .err msg []) ∧
      (∀ ts, coerceArgs "on_update_bg" args (List.take args.length [.int]) = .ok ts →
        call sink "update_bg" args =
          .err ("No such argument for " ++ "on_update_bg") [])) ∧
    (∀ (sink : SinkOp → RepaintMode) (args : List Value), args.length < 1 →
      (∃ msg, call sink "update_fg" args = .err msg []) ∧
      (∀ ts, coerceArgs "on_update_fg" args (List.take args.length [.int]) = .ok ts →
        call sink "update_fg" args =
          .err ("No such argument for " ++ "on_update_fg") [])) ∧
    (∀ (sink : SinkOp → RepaintMode) (args : List Value), args.length < 1 →
      (∃ msg, call sink "update_sp" args = .err msg []) ∧
      (∀ ts, coerceArgs "on_update_sp" args (List.take args.length [.int]) = .ok ts →
        call sink "update_sp" args =
          .err ("No such argument for " ++ "on_update_sp") [])) ∧
    (∀ (sink : SinkOp → RepaintMode) (args : List Value), args.length < 2 →
      (∃ msg, call sink "mode_change" args = .err msg []) ∧
      (∀ ts, coerceArgs "on_mode_change" args
          (List.take args.length [.str, .uint]) = .ok ts →
        call sink "mode_change" args =
          .err ("No such argument for " ++ "on_mode_change") [])) ∧
    (∀ (sink : SinkOp → RepaintMode) (args : List Value), args.length < 1 →
      (∃ msg, call sink "popupmenu_select" args = .err msg []) ∧
      (∀ ts, coerceArgs "popupmenu_select" args
          (List.take args.length [.int]) = .ok ts →
        call sink "popupmenu_select" args =
          .err ("No such argument for " ++ "popupmenu_select") [])) ∧
    (∀ (sink : SinkOp → RepaintMode) (args : List Value), args.length < 6 →
      (∃ msg, call sink "cmdline_show" args = .err msg []) ∧
      (∀ ts, coerceArgs "cmdline_show" args
          (List.take args.length
            [.extContent, .uint, .str, .str, .uint, .uint]) = .ok ts →
        call sink "cmdline_show" args =
          .err ("No such argument for " ++ "cmdline_show") [])) ∧
    (∀ (sink : SinkOp → RepaintMode) (args : List Value), args.length < 1 →
      (∃ msg, call sink "cmdline_block_show" args = .err msg []) ∧
      (∀ ts, coerceArgs "cmdline_block_show" args
          (List.take args.length [.extBlockContent]) = .ok ts →
        call sink "cmdline_block_show" args =
          .err ("No such argument for " ++ "cmdline_block_show") [])) ∧
    (∀ (sink : SinkOp → RepaintMode) (args : List Value), args.length < 1 →
      (∃ msg, call sink "cmdline_block_append" args = .err msg []) ∧
      (∀ ts, coerceArgs "cmdline_block_append" args
          (List.take args.length [.extContent]) = .ok ts →
        call sink "cmdline_block_append" args =
          .err ("No such argument for " ++ "cmdline_block_append") [])) ∧
    (∀ (sink : SinkOp → RepaintMode) (args : List Value), args.length < 1 →
      (∃ msg, call sink "cmdline_hide" args = .err msg []) ∧
      (∀ ts, coerceArgs "cmdline_hide" args
          (List.take args.length [.uint]) = .ok ts →
        call sink "cmdline_hide" args =
          .err ("No such argument for " ++ "cmdline_hide") [])) ∧
    (∀ (sink : SinkOp → RepaintMode) (args : List Value), args.length < 2 →
      (∃ msg, call sink "cmdline_pos" args = .err msg []) ∧
      (∀ ts, coerceArgs "cmdline_pos" args
          (List.take args.length [.uint, .uint]) = .ok ts →
        call sink "cmdline_pos" args =
          .err ("No such argument for " ++ "cmdline_pos") [])) ∧
    (∀ (sink : SinkOp → RepaintMode) (args : List Value), args.length < 3 →
      (∃ msg, call sink "cmdline_special_char" args = .err msg []) ∧
      (∀ ts, coerceArgs "cmdline_special_char" args
          (List.take args.length [.str, .bool, .uint]) = .ok ts →
        call sink "cmdline_special_char" args =
          .err ("No such argument for " ++ "cmdline_special_char") [])) ∧
    (∀ sink : SinkOp → RepaintMode, call sink "popupmenu_show" [] = .panic []) ∧
    (∀ sink : SinkOp → RepaintMode, call sink "tabline_update" [] = .panic []) ∧
    (∀ sink : SinkOp → RepaintMode, call sink "mode_info_set" [] = .panic []) :=
  ⟨fun sink args h => macroArm_short_err sink "on_cursor_goto" [.uint, .uint]
      buildCursorGoto args h,
   fun sink args h => macroArm_short_err sink "on_put" [.str] buildPut args h,
   fun sink args h => macroArm_short_err sink "on_resize" [.uint, .uint]
      buildResize args h,
   fun sink args h => macroArmDiscard_short_err sink "on_highlight_set"
      [.extAttrMap] buildHighlightSet args h,
   fun sink args h => macroArmDiscard_short_err sink "on_set_scroll_region"
      [.uint, .uint, .uint, .uint] buildSetScrollRegion args h,
   fun sink args h => macroArm_short_err sink "on_scroll" [.int] buildScroll args h,
   fun sink args h => macroArm_short_err sink "on_update_bg" [.int]
      buildUpdateBg args h,
   fun sink args h => macroArm_short_err sink "on_update_fg" [.int]
      buildUpdateFg args h,
   fun sink args h => macroArm_short_err sink "on_update_sp" [.int]
      buildUpdateSp args h,
   fun sink args h => macroArm_short_err sink "on_mode_change" [.str, .uint]
      buildModeChange args h,
   fun sink args h => macroArm_short_err sink "popupmenu_select" [.int]
      buildPopupmenuSelect args h,
   fun sink args h => macroArm_short_err sink "cmdline_show"
      [.extContent, .uint, .str, .str, .uint, .uint] buildCmdlineShow args h,
   fun sink args h => macroArm_short_err sink "cmdline_block_show"
      [.extBlockContent] buildCmdlineBlockShow args h,
   fun sink args h => macroArm_short_err sink "cmdline_block_append"
      [.extContent] buildCmdlineBlockAppend args h,
   fun sink args h => macroArm_short_err sink "cmdline_hide" [.uint]
      buildCmdlineHide args h,
   fun sink args h => macroArm_short_err sink "cmdline_pos" [.uint, .uint]
      buildCmdlinePos args h,
   fun sink args h => macroArm_short_err sink "cmdline_special_char"
      [.str, .bool, .uint] buildCmdlineSpecialChar args h,
   fun _ => rfl, fun _ => rfl, fun _ => rfl⟩

/-- C2 witness: `cursor_goto` with an empty argument list returns the
missing-argument error and invokes no sink operation. -/
theorem C2_missing_arguments_witness :
    (∃ msg, call sinkNothing "cursor_goto" [] = .err msg []) ∧
    call sinkNothing "cursor_goto" [] =
      .err ("No such argument for " ++ "on_cursor_goto") [] :=
  ⟨(C2_missing_arguments.1 sinkNothing [] (by decide)).1,
   (C2_missing_arguments.1 sinkNothing [] (by decide)).2 [] rfl⟩

/-- C3 counterexample: the claim states dispatch returns the invoked sink
operation's repaint outcome as the call's result; but the
`highlight_set` arm discards the sink's outcome (here `Full`) and returns
`Nothing`. -/
theorem C3_well_typed_dispatch_cex :
    call sinkFull "highlight_set" [.map []] = .ok [.onHighlightSet []] .nothing ∧
    sinkFull (.onHighlightSet []) = .full ∧
    RepaintMode.nothing ≠ .full :=
  ⟨rfl, rfl, by decide⟩

/-- C3 (amended): for every recognized redraw method, a fully-specified,
well-typed argument list (each positional value coerces against the
declared kind, expressed by the coercion/decode premises) makes dispatch
succeed and invoke exactly the corresponding sink operation once with the
coerced values in argument order, returning that operation's repaint
outcome as the call's result — except `highlight_set` and
`set_scroll_region`, which invoke the sink operation but discard its
outcome and return `RepaintMode::Nothing`. One conjunct per recognized
method, in source arm order. -/
theorem C3_well_typed_dispatch :
    (∀ (sink : SinkOp → RepaintMode) (v1 v2 : Value) (row col : Nat),
      v1.as_u64 = some row → v2.as_u64 = some col →
      call sink "cursor_goto" [v1, v2] =
        .ok [.onCursorGoto row col] (sink (.onCursorGoto row col))) ∧
    (∀ (sink : SinkOp → RepaintMode) (text : String),
      call sink "put" [.str text] = .ok [.onPut text] (sink (.onPut text))) ∧
    (∀ sink : SinkOp → RepaintMode,
      call sink "clear" [] = .ok [.onClear] (sink .onClear)) ∧
    (∀ (sink : SinkOp → RepaintMode) (v1 v2 : Value) (columns rows : Nat),
      v1.as_u64 = some columns → v2.as_u64 = some rows →
      call sink "resize" [v1, v2] =
        .ok [.onResize columns rows] (sink (.onResize columns rows))) ∧
    (∀ (sink : SinkOp → RepaintMode) (v : Value) (attrs : List (String × Value)),
      decodeAttrMap v = .ok attrs →
      call sink "highlight_set" [v] = .ok [.onHighlightSet attrs] .nothing) ∧
    (∀ sink : SinkOp → RepaintMode,
      call sink "eol_clear" [] = .ok [.onEolClear] (sink .onEolClear)) ∧
    (∀ (sink : SinkOp → RepaintMode) (v1 v2 v3 v4 : Value)
      (top bot left right : Nat),
      v1.as_u64 = some top → v2.as_u64 = some bot → v3.as_u64 = some left →
      v4.as_u64 = some right →
      call sink "set_scroll_region" [v1, v2, v3, v4] =
        .ok [.onSetScrollRegion top bot left right] .nothing) ∧
    (∀ (sink : SinkOp → RepaintMode) (v : Value) (count : Int),
      v.as_i64 = some count →
      call sink "scroll" [v] = .ok [.onScroll count] (sink (.onScroll count))) ∧
    (∀ (sink : SinkOp → RepaintMode) (v : Value) (bg : Int),
      v.as_i64 = some bg →
      call sink "update_bg" [v] = .ok [.onUpdateBg bg] (sink (.onUpdateBg bg))) ∧
    (∀ (sink : SinkOp → RepaintMode) (v : Value) (fg : Int),
      v.as_i64 = some fg →
      call sink "update_fg" [v] = .ok [.onUpdateFg fg] (sink (.onUpdateFg fg))) ∧
    (∀ (sink : SinkOp → RepaintMode) (v : Value) (sp : Int),
      v.as_i64 = some sp →
      call sink "update_sp" [v] = .ok [.onUpdateSp sp] (sink (.onUpdateSp sp))) ∧
    (∀ (sink : SinkOp → RepaintMode) (mode : String) (v : Value) (idx : Nat),
      v.as_u64 = some idx →
      call sink "mode_change" [.str mode, v] =
        .ok [.onModeChange mode idx] (sink (.onModeChange mode idx))) ∧
    (∀ sink : SinkOp → RepaintMode,
      call sink "mouse_on" [] = .ok [.onMouse true] (sink (.onMouse true))) ∧
    (∀ sink : SinkOp → RepaintMode,
      call sink "mouse_off" [] = .ok [.onMouse false] (sink (.onMouse false))) ∧
    (∀ sink : SinkOp → RepaintMode,
      call sink "busy_start" [] = .ok [.onBusy true] (sink (.onBusy true))) ∧
    (∀ sink : SinkOp → RepaintMode,
      call sink "busy_stop" [] = .ok [.onBusy false] (sink (.onBusy false))) ∧
    (∀ (sink : SinkOp → RepaintMode) (v0 v1 v2 v3 : Value)
      (rows : List (List String)) (items : List CompleteItem)
      (selected : Int) (row col : Nat),
      decodeMenu v0 = .ok rows → CompleteItem.map rows = some items →
      v1.as_i64 = some selected → v2.as_u64 = some row → v3.as_u64 = some col →
      call sink "popupmenu_show" [v0, v1, v2, v3] =
        .ok [.popupmenuShow items selected row col]
          (sink (.popupmenuShow items selected row col))) ∧
    (∀ sink : SinkOp → RepaintMode,
      call sink "popupmenu_hide" [] =
        .ok [.popupmenuHide] (sink .popupmenuHide)) ∧
    (∀ (sink : SinkOp → RepaintMode) (v : Value) (selected : Int),
      v.as_i64 = some selected →
      call sink "popupmenu_select" [v] =
        .ok [.popupmenuSelect selected] (sink (.popupmenuSelect selected))) ∧
    (∀ (sink : SinkOp → RepaintMode) (v0 v1 : Value) (items : List Value)
      (tabs : List (Tabpage × Option String)),
      v1.as_array = some items → mapPE decodeTabRow items = .ok tabs →
      call sink "tabline_update" [v0, v1] =
        .ok [.tablineUpdate (Tabpage.new v0) tabs]
          (sink (.tablineUpdate (Tabpage.new v0) tabs))) ∧
    (∀ (sink : SinkOp → RepaintMode) (v0 v1 : Value) (items : List Value)
      (mode_info : List ModeInfo) (cursor_style_enabled : Bool),
      v1.as_array = some items →
      mapME decodeModeInfoRow items = .ok mode_info →
      v0.as_bool = some cursor_style_enabled →
      call sink "mode_info_set" [v0, v1] =
        .ok [.modeInfoSet cursor_style_enabled mode_info]
          (sink (.modeInfoSet cursor_style_enabled mode_info))) ∧
    (∀ (sink : SinkOp → RepaintMode) (v0 v1 v4 v5 : Value)
      (content : List (List (String × Value) × String))
      (firstc prompt : String) (pos indent level : Nat),
      decodeContent v0 = .ok content → v1.as_u64 = some pos →
      v4.as_u64 = some indent → v5.as_u64 = some level →
      call sink "cmdline_show" [v0, v1, .str firstc, .str prompt, v4, v5] =
        .ok [.cmdlineShow content pos firstc prompt indent level]
          (sink (.cmdlineShow content pos firstc prompt indent level))) ∧
    (∀ (sink : SinkOp → RepaintMode) (v : Value)
      (content : List (List (List (String × Value) × String))),
      decodeBlockContent v = .ok content →
      call sink "cmdline_block_show" [v] =
        .ok [.cmdlineBlockShow content] (sink (.cmdlineBlockShow content))) ∧
    (∀ (sink : SinkOp → RepaintMode) (v : Value)
      (content : List (List (String × Value) × String)),
      decodeContent v = .ok content →
      call sink "cmdline_block_append" [v] =
        .ok [.cmdlineBlockAppend content] (sink (.cmdlineBlockAppend content))) ∧
    (∀ (sink : SinkOp → RepaintMode) (v : Value) (level : Nat),
      v.as_u64 = some level →
      call sink "cmdline_hide" [v] =
        .ok [.cmdlineHide level] (sink (.cmdlineHide level))) ∧
    (∀ sink : SinkOp → RepaintMode,
      call sink "cmdline_block_hide" [] =
        .ok [.cmdlineBlockHide] (sink .cmdlineBlockHide)) ∧
    (∀ (sink : SinkOp → RepaintMode) (v1 v2 : Value) (pos level : Nat),
      v1.as_u64 = some pos → v2.as_u64 = some level →
      call sink "cmdline_pos" [v1, v2] =
        .ok [.cmdlinePos pos level] (sink (.cmdlinePos pos level))) ∧
    (∀ (sink : SinkOp → RepaintMode) (c : String) (vb vl : Value)
      (shift : Bool) (level : Nat),
      vb.as_bool = some shift → vl.as_u64 = some level →
      call sink "cmdline_special_char" [.str c, vb, vl] =
        .ok [.cmdlineSpecialChar c shift level]
          (sink (.cmdlineSpecialChar c shift level))) := by
  refine ⟨?_, ?_, ?_, ?_, ?_, ?_, ?_, ?_, ?_, ?_, ?_, ?_, ?_, ?_, ?_, ?_, ?_,
    ?_, ?_, ?_, ?_, ?_, ?_, ?_, ?_, ?_, ?_, ?_⟩
  · intro sink v1 v2 row col h1 h2
    show runMacroArm sink (coerceArgs "on_cursor_goto" [v1, v2] [.uint, .uint])
      buildCursorGoto = _
    simp [coerceArgs, tryArg, try_uint, h1, h2, Except.map, runMacroArm,
      buildCursorGoto]
  · intro sink text
    exact rfl
  · intro sink
    exact rfl
  · intro sink v1 v2 columns rows h1 h2
    show runMacroArm sink (coerceArgs "on_resize" [v1, v2] [.uint, .uint])
      buildResize = _
    simp [coerceArgs, tryArg, try_uint, h1, h2, Except.map, runMacroArm, buildResize]
  · intro sink v attrs hm
    show runMacroArmDiscard sink (coerceArgs "on_highlight_set" [v] [.extAttrMap])
      buildHighlightSet = _
    simp [coerceArgs, tryArg, hm, Except.map, runMacroArmDiscard, buildHighlightSet]
  · intro sink
    exact rfl
  · intro sink v1 v2 v3 v4 top bot left right h1 h2 h3 h4
    show runMacroArmDiscard sink (coerceArgs "on_set_scroll_region"
      [v1, v2, v3, v4] [.uint, .uint, .uint, .uint]) buildSetScrollRegion = _
    simp [coerceArgs, tryArg, try_uint, h1, h2, h3, h4, Except.map,
      runMacroArmDiscard, buildSetScrollRegion]
  · intro sink v count h
    show runMacroArm sink (coerceArgs "on_scroll" [v] [.int]) buildScroll = _
    simp [coerceArgs, tryArg, try_int, h, Except.map, runMacroArm, buildScroll]
  · intro sink v bg h
    show runMacroArm sink (coerceArgs "on_update_bg" [v] [.int]) buildUpdateBg = _
    simp [coerceArgs, tryArg, try_int, h, Except.map, runMacroArm, buildUpdateBg]
  · intro sink v fg h
    show runMacroArm sink (coerceArgs "on_update_fg" [v] [.int]) buildUpdateFg = _
    simp [coerceArgs, tryArg, try_int, h, Except.map, runMacroArm, buildUpdateFg]
  · intro sink v sp h
    show runMacroArm sink (coerceArgs "on_update_sp" [v] [.int]) buildUpdateSp = _
    simp [coerceArgs, tryArg, try_int, h, Except.map, runMacroArm, buildUpdateSp]
  · intro sink mode v idx h
    show runMacroArm sink (coerceArgs "on_mode_change" [.str mode, v]
      [.str, .uint]) buildModeChange = _
    simp [coerceArgs, tryArg, try_uint, h, Except.map, runMacroArm, buildModeChange]
  · intro sink
    exact rfl
  · intro sink
    exact rfl
  · intro sink
    exact rfl
  · intro sink
    exact rfl
  · intro sink v0 v1 v2 v3 rows items selected row col h0 hitems h1 h2 h3
    show popupmenuShowArm sink [v0, v1, v2, v3] = _
    simp [popupmenuShowArm, h0, hitems, try_int, try_uint, h1, h2, h3]
  · intro sink
    exact rfl
  · intro sink v selected h
    show runMacroArm sink (coerceArgs "popupmenu_select" [v] [.int])
      buildPopupmenuSelect = _
    simp [coerceArgs, tryArg, try_int, h, Except.map, runMacroArm,
      buildPopupmenuSelect]
  · intro sink v0 v1 items tabs ha ht
    show tablineUpdateArm sink [v0, v1] = _
    simp [tablineUpdateArm, ha, ht]
  · intro sink v0 v1 items mode_info cursor_style_enabled ha hm hb
    show modeInfoSetArm sink [v0, v1] = _
    simp [modeInfoSetArm, ha, hm, try_bool, hb]
  · intro sink v0 v1 v4 v5 content firstc prompt pos indent level hc h1 h4 h5
    show runMacroArm sink (coerceArgs "cmdline_show"
      [v0, v1, .str firstc, .str prompt, v4, v5]
      [.extContent, .uint, .str, .str, .uint, .uint]) buildCmdlineShow = _
    simp [coerceArgs, tryArg, try_uint, hc, h1, h4, h5, Except.map, runMacroArm,
      buildCmdlineShow]
  · intro sink v content hc
    show runMacroArm sink (coerceArgs "cmdline_block_show" [v] [.extBlockContent])
      buildCmdlineBlockShow = _
    simp [coerceArgs, tryArg, hc, Except.map, runMacroArm, buildCmdlineBlockShow]
  · intro sink v content hc
    show runMacroArm sink (coerceArgs "cmdline_block_append" [v] [.extContent])
      buildCmdlineBlockAppend = _
    simp [coerceArgs, tryArg, hc, Except.map, runMacroArm, buildCmdlineBlockAppend]
  · intro sink v level h
    show runMacroArm sink (coerceArgs "cmdline_hide" [v] [.uint]) buildCmdlineHide = _
    simp [coerceArgs, tryArg, try_uint, h, Except.map, runMacroArm, buildCmdlineHide]
  · intro sink
    exact rfl
  · intro sink v1 v2 pos level h1 h2
    show runMacroArm sink (coerceArgs "cmdline_pos" [v1, v2] [.uint, .uint])
      buildCmdlinePos = _
    simp [coerceArgs, tryArg, try_uint, h1, h2, Except.map, runMacroArm,
      buildCmdlinePos]
  · intro sink c vb vl shift level hb hl
    show runMacroArm sink (coerceArgs "cmdline_special_char" [.str c, vb, vl]
      [.str, .bool, .uint]) buildCmdlineSpecialChar = _
    simp [coerceArgs, tryArg, try_bool, try_uint, hb, hl, Except.map, runMacroArm,
      buildCmdlineSpecialChar]

/-- C3 witness: a concrete well-typed `popupmenu_show` call dispatches to
the popup-menu sink operation and returns its outcome. -/
theorem C3_well_typed_dispatch_witness :
    call sinkFull "popupmenu_show"
      [.array [.array [.str "w", .str "k", .str "m", .str "i"]],
       .integer (-1), .integer 0, .integer 2] =
      .ok [.popupmenuShow [⟨"w", "k", "m", "i"⟩] (-1) 0 2] .full :=
  (C3_well_typed_dispatch.2.2.2.2.2.2.2.2.2.2.2.2.2.2.2.2.1) sinkFull
    (.array [.array [.str "w", .str "k", .str "m", .str "i"]])
    (.integer (-1)) (.integer 0) (.integer 2)
    [["w", "k", "m", "i"]] [⟨"w", "k", "m", "i"⟩] (-1) 0 2
    rfl rfl rfl rfl rfl

/-- C9: the six zero-wire-argument methods never inspect the argument
list: for every argument list they invoke exactly their fixed sink
operation (`on_mouse` with true/false, `on_busy` with true/false,
`on_clear`, `popupmenu_hide`) and return its outcome wrapped in `Ok`. -/
theorem C9_zero_arg_methods (sink : SinkOp → RepaintMode) (args : List Value) :
    call sink "mouse_on" args = .ok [.onMouse true] (sink (.onMouse true)) ∧
    call sink "mouse_off" args = .ok [.onMouse false] (sink (.onMouse false)) ∧
    call sink "busy_start" args = .ok [.onBusy true] (sink (.onBusy true)) ∧
    call sink "busy_stop" args = .ok [.onBusy false] (sink (.onBusy false)) ∧
    call sink "clear" args = .ok [.onClear] (sink .onClear) ∧
    call sink "popupmenu_hide" args =
      .ok [.popupmenuHide] (sink .popupmenuHide) :=
  ⟨rfl, rfl, rfl, rfl, rfl, rfl⟩

/-- C6: the command dispatcher treats the top-level method set
{Font, Clipboard, Option} as closed — any other method name fails with
the `Unsupported event` error for every argument list — while an unknown
sub-option of `Clipboard` or `Option` is only logged: the dispatcher
returns `Ok` having performed no effect. -/
theorem C6_command_dispatcher (has_nvim : Bool) :
    (∀ (method : String) (args : List Value),
      method ∉ ["Font", "Clipboard", "Option"] →
      call_gui_event has_nvim method args =
        .err ("Unsupported event " ++ method) []) ∧
    (∀ (s : String) (rest : List Value), s ≠ "Set" →
      call_gui_event has_nvim "Clipboard" (.str s :: rest) = .ok []) ∧
    (∀ (s : String) (rest : List Value),
      s ∉ ["Popupmenu", "Tabline", "Cmdline"] →
      call_gui_event has_nvim "Option" (.str s :: rest) = .ok []) := by
  refine ⟨?_, ?_, ?_⟩
  · intro method args h
    unfold call_gui_event
    split <;> simp_all
  · intro s rest h
    unfold call_gui_event
    split <;> simp_all [Value.as_str]
  · intro s rest h
    unfold call_gui_event
    split <;> simp_all [Value.as_str]

/-- C6 witness: the spec's example name `Bogus` is an unsupported event;
an unknown `Clipboard` sub-option and an unknown `Option` sub-option are
tolerated. -/
theorem C6_command_dispatcher_witness :
    call_gui_event true "Bogus" [] = .err ("Unsupported event " ++ "Bogus") [] ∧
    call_gui_event true "Clipboard" [.str "Copy"] = .ok [] ∧
    call_gui_event true "Option" [.str "Foo", .integer 1] = .ok [] :=
  ⟨(C6_command_dispatcher true).1 "Bogus" [] (by decide),
   (C6_command_dispatcher true).2.1 "Copy" [] (by decide),
   (C6_command_dispatcher true).2.2 "Foo" [.integer 1] (by decide)⟩

/-- C8 counterexample: the claim states the fold yields the same result
for every permutation of a fixed multiset of outcomes; but two `Cursor`
outcomes with different positions combine to "the later one", so the two
orders of the same two-element multiset fold to different cursors. -/
theorem C8_fold_permutation_cex :
    RepaintMode.fold [.cursor 1 2, .cursor 3 4] = .cursor 3 4 ∧
    RepaintMode.fold [.cursor 3 4, .cursor 1 2] = .cursor 1 2 ∧
    List.Perm [RepaintMode.cursor 1 2, RepaintMode.cursor 3 4]
      [RepaintMode.cursor 3 4, RepaintMode.cursor 1 2] ∧
    RepaintMode.cursor 3 4 ≠ RepaintMode.cursor 1 2 :=
  ⟨rfl, rfl, List.Perm.swap _ _ _, by decide⟩

/-- C8 (amended): the pairwise combination is associative and has
`Nothing` as a two-sided identity, and it is commutative except on two
`Cursor` outcomes with different positions (where the later one wins) —
so a permutation can change the fold only through that cursor/cursor
case; in particular the spec's own example multiset, which contains an
`Area`, folds to the same `Area` in both orders. -/
theorem C8_fold_algebra :
    (∀ a b c : RepaintMode, (a.join b).join c = a.join (b.join c)) ∧
    (∀ a : RepaintMode, RepaintMode.join .nothing a = a ∧
      RepaintMode.join a .nothing = a) ∧
    (∀ a b : RepaintMode, a.join b = b.join a ∨
      ∃ r c r2 c2, a = .cursor r c ∧ b = .cursor r2 c2 ∧ ¬(r = r2 ∧ c = c2)) ∧
    (RepaintMode.fold [.cursor 1 2, .area 0 0 5 5, .nothing] = .area 0 0 5 5 ∧
      RepaintMode.fold [.area 0 0 5 5, .nothing, .cursor 1 2] = .area 0 0 5 5) := by
  refine ⟨?_, ?_, ?_, rfl, rfl⟩
  · intro a b c
    cases a <;> cases b <;> cases c <;> first
      | rfl
      | (simp only [RepaintMode.join, RepaintMode.area.injEq]; omega)
  · intro a
    cases a <;> simp [RepaintMode.join]
  · intro a b
    cases a with
    | nothing => left; cases b <;> simp [RepaintMode.join]
    | full => left; cases b <;> simp [RepaintMode.join]
    | area t1 b1 l1 r1 =>
      left; cases b <;> first
        | rfl
        | (simp only [RepaintMode.join, RepaintMode.area.injEq]; omega)
    | cursor r c =>
      cases b with
      | nothing => left; simp [RepaintMode.join]
      | full => left; simp [RepaintMode.join]
      | area t2 b2 l2 r2 => left; simp [RepaintMode.join]
      | cursor r2 c2 =>
        by_cases h : r = r2 ∧ c = c2
        · obtain ⟨h1, h2⟩ := h
          subst h1; subst h2
          left; rfl
        · right; exact ⟨r, c, r2, c2, rfl, rfl, h⟩

theorem dropWhile_all_eq_nil {p : Char → Bool} (l : List Char)
    (h : ∀ x ∈ l.dropWhile p, p x) : l.dropWhile p = [] := by
  induction l with
  | nil => rfl
  | cons c t ih =>
    cases hc : p c with
    | true =>
      rw [List.dropWhile_cons_of_pos hc] at h ⊢
      exact ih h
    | false =>
      rw [List.dropWhile_cons_of_neg (by simp [hc])] at h
      have := h c (by simp)
      simp [hc] at this

/-- The source's emptiness test after `trim` holds exactly when the whole
string is whitespace. -/
theorem rustTrim_eq_nil_iff (l : List Char) :
    rustTrim l = [] ↔ ∀ c ∈ l, rustIsWhitespace c := by
  unfold rustTrim
  constructor
  · intro h
    rw [List.reverse_eq_nil_iff, List.dropWhile_eq_nil_iff] at h
    have hall : ∀ x ∈ l.dropWhile rustIsWhitespace, rustIsWhitespace x := by
      intro x hx
      exact h x (by simpa using hx)
    have hnil : l.dropWhile rustIsWhitespace = [] := dropWhile_all_eq_nil l hall
    intro c hc
    have hsplit := List.takeWhile_append_dropWhile (p := rustIsWhitespace) (l := l)
    rw [hnil, List.append_nil] at hsplit
    rw [← hsplit] at hc
    exact List.mem_takeWhile_imp hc
  · intro h
    have hnil : l.dropWhile rustIsWhitespace = [] :=
      List.dropWhile_eq_nil_iff.mpr h
    simp [hnil]

/-- C10 counterexample: the claim states `insert_attr` inserts one
attribute spanning index 0 to the given end index; but the source casts
the end index to `u32`, so at `2^32` the stored end index is `0`, not the
given one. -/
theorem C10_font_features_cex :
    (FontFeatures.fromString "x").insert_attr [] 4294967296 = [⟨"x", 0, 0⟩] ∧
    (4294967296 : Nat) ≠ 0 :=
  ⟨rfl, by decide⟩

/-- C10 (amended): a string of only whitespace (including the empty
string) yields a `FontFeatures` with no stored features, whose
`insert_attr` leaves any attribute list unchanged; a string with a
non-whitespace character is stored as-is, and `insert_attr` appends
exactly one features attribute from index 0 to the given end index
reduced modulo `2^32` (the source's `u32` cast). -/
theorem C10_font_features :
    (∀ s : String, (∀ c ∈ s.data, rustIsWhitespace c) →
      FontFeatures.fromString s = ⟨none⟩ ∧
      ∀ (attr_list : List PangoAttribute) (end_idx : Nat),
        (FontFeatures.fromString s).insert_attr attr_list end_idx = attr_list) ∧
    (∀ s : String, ¬(∀ c ∈ s.data, rustIsWhitespace c) →
      FontFeatures.fromString s = ⟨some s⟩ ∧
      ∀ (attr_list : List PangoAttribute) (end_idx : Nat),
        (FontFeatures.fromString s).insert_attr attr_list end_idx =
          attr_list ++ [⟨s, 0, end_idx % 2 ^ 32⟩]) := by
  constructor
  · intro s h
    have ht : rustTrim s.data = [] := (rustTrim_eq_nil_iff _).mpr h
    constructor
    · simp [FontFeatures.fromString, ht, FontFeatures.new]
    · intro attr_list end_idx
      simp [FontFeatures.fromString, ht, FontFeatures.new, FontFeatures.insert_attr]
  · intro s h
    have ht : rustTrim s.data ≠ [] := fun hh => h ((rustTrim_eq_nil_iff _).mp hh)
    have hE : (rustTrim s.data).isEmpty = false := by
      simpa [List.isEmpty_iff] using ht
    constructor
    · simp [FontFeatures.fromString, hE]
    · intro attr_list end_idx
      simp [FontFeatures.fromString, hE, FontFeatures.insert_attr]

/-- C10 witness: a whitespace string stores nothing and inserts nothing;
a real feature string is stored and inserted with the given bounds. -/
theorem C10_font_features_witness :
    FontFeatures.fromString " \t" = ⟨none⟩ ∧
    (FontFeatures.fromString " \t").insert_attr [⟨"x", 0, 1⟩] 5 = [⟨"x", 0, 1⟩] ∧
    FontFeatures.fromString "liga" = ⟨some "liga"⟩ ∧
    (FontFeatures.fromString "liga").insert_attr [] 7 = [⟨"liga", 0, 7⟩] :=
  ⟨(C10_font_features.1 " \t" (by decide)).1,
   (C10_font_features.1 " \t" (by decide)).2 [⟨"x", 0, 1⟩] 5,
   (C10_font_features.2 "liga" (by decide)).1,
   (C10_font_features.2 "liga" (by decide)).2 [] 7⟩

end NvimGtk
